import Mathlib

/-!
Verification of the linodego API-client slice (account events, instances,
placement groups): a shallow embedding of the JSON decoding, option-record
serialization, pagination and client-method control flow, together with
theorems settling the specification's claims.

Go values are embedded as follows: Go pointers become `Option`, Go slices
become `List`, Go `int` becomes `Int`, `json.RawMessage` becomes
`Option Json` (`none` = field absent).  JSON numbers are modelled as `Int`
(all numeric fields in this slice are integers on the wire).
-/

namespace Linodego

/-- A JSON value.  Object fields are kept as an ordered association list,
mirroring the wire object. -/
inductive Json where
  | null : Json
  | bool : Bool → Json
  | num : Int → Json
  | str : String → Json
  | arr : List Json → Json
  | obj : List (String × Json) → Json

/-- Field lookup in a JSON object, keeping the LAST binding of a duplicated
key, as Go's `encoding/json` does (later values overwrite earlier ones). -/
def jsonLookup (fields : List (String × Json)) (name : String) : Option Json :=
  fields.foldl (fun acc kv => if kv.1 = name then some kv.2 else acc) none

/-- Whether a serialized JSON object carries a field with the given name. -/
def hasField (j : Json) (name : String) : Bool :=
  match j with
  | .obj fs => fs.any (fun kv => kv.1 == name)
  | _ => false

/-- Errors produced by the HTTP layer / error classifier
(`coupleAPIErrors` and transport failures are external collaborators; the
page-fetch oracle returns them already classified). -/
inductive ApiError where
  | api : Int → String → ApiError
  | transport : String → ApiError
deriving DecidableEq

/-- A civil timestamp, the canonical absolute-time value produced by the
tolerant timestamp decoder (embeds Go's `time.Time` for the two
timezone-naive wire formats, which are taken as UTC). -/
structure DateTime where
  year : Nat
  month : Nat
  day : Nat
  hour : Nat
  minute : Nat
  second : Nat
deriving DecidableEq, Repr

/-- Numeric value of a decimal digit character. -/
def digitVal (c : Char) : Nat := c.toNat - 48

/-- Modelled from the spec: the recognized timestamp formats of
`internal/parseabletime` (absent from the provided sources) — the primary
"YYYY-MM-DD HH:MM:SS" form and the ISO-8601 "YYYY-MM-DDTHH:MM:SS" form,
timezone-naive, taken as UTC.  Returns `none` when the string matches
neither format. -/
def parseTimestampString (s : String) : Option DateTime :=
  match s.data with
  | [y1, y2, y3, y4, '-', mo1, mo2, '-', d1, d2, sep, h1, h2, ':', mi1, mi2, ':', s1, s2] =>
    if ([y1, y2, y3, y4, mo1, mo2, d1, d2, h1, h2, mi1, mi2, s1, s2].all Char.isDigit)
        ∧ (sep = ' ' ∨ sep = 'T') then
      let dt : DateTime :=
        { year := ((digitVal y1 * 10 + digitVal y2) * 10 + digitVal y3) * 10 + digitVal y4
          month := digitVal mo1 * 10 + digitVal mo2
          day := digitVal d1 * 10 + digitVal d2
          hour := digitVal h1 * 10 + digitVal h2
          minute := digitVal mi1 * 10 + digitVal mi2
          second := digitVal s1 * 10 + digitVal s2 }
      if 1 ≤ dt.month ∧ dt.month ≤ 12 ∧ 1 ≤ dt.day ∧ dt.day ≤ 31
          ∧ dt.hour ≤ 23 ∧ dt.minute ≤ 59 ∧ dt.second ≤ 59 then
        some dt
      else none
    else none
  | _ => none

/-- Modelled from the spec: decoding of a `parseabletime.ParseableTime`
pointer field (absent from the provided sources).  A JSON null or an absent
field yields "no timestamp" (`none`, a nil `*time.Time`); a string in a
recognized format yields the parsed instant; anything else is a
`DecodeError` that fails the enclosing record decode. -/
def parseTimestampField : Option Json → Except String (Option DateTime)
  | none => .ok none
  | some .null => .ok none
  | some (.str s) =>
    match parseTimestampString s with
    | some t => .ok (some t)
    | none => .error "DecodeError: unrecognized timestamp format"
  | some _ => .error "DecodeError: timestamp must be a JSON string"

/-- Split a leading run of decimal digits off a character list. -/
def takeDigits : List Char → List Char × List Char
  | [] => ([], [])
  | c :: cs =>
    if c.isDigit then
      let p := takeDigits cs
      (c :: p.1, p.2)
    else ([], c :: cs)

/-- Numeric value of a list of decimal digit characters. -/
def digitsVal (ds : List Char) : Nat :=
  ds.foldl (fun acc c => acc * 10 + digitVal c) 0

/-- Modelled from the spec: the duration grammar recognized by the
`internal/duration` package (absent from the provided sources) — an
"H:MM:SS" clock-style string (one or more hour digits) converted to a
count of seconds.  Returns `none` for anything outside the grammar. -/
def parseDurationString (s : String) : Option Int :=
  match takeDigits s.data with
  | ([], _) => none
  | (hs, rest) =>
    match rest with
    | [':', m1, m2, ':', s1, s2] =>
      if [m1, m2, s1, s2].all Char.isDigit then
        let m := digitVal m1 * 10 + digitVal m2
        let sec := digitVal s1 * 10 + digitVal s2
        if m ≤ 59 ∧ sec ≤ 59 then
          some ((digitsVal hs * 3600 + m * 60 + sec : Nat) : Int)
        else none
      else none
    | _ => none

/-- Modelled from the spec: `duration.UnmarshalTimeRemaining` (absent from
the provided sources).  Total — it never fails.  Null or absent → no value;
a bare integer → that value; a parseable duration string → its seconds;
anything unparseable → no value (deliberate tolerance, not an error). -/
def UnmarshalTimeRemaining : Option Json → Option Int
  | none => none
  | some .null => none
  | some (.num n) => some n
  | some (.str s) => parseDurationString s
  | some _ => none

/-! ## Go structural-decoding semantics for individual fields

`encoding/json` semantics: a missing field or a JSON `null` leaves the
destination untouched (its zero value for a fresh struct); a matching
token replaces it; a mismatched token is a decode error. -/

/-- Decode a JSON value into a Go `int` field whose current value is `cur`. -/
def goInt (cur : Int) : Option Json → Except String Int
  | none => .ok cur
  | some .null => .ok cur
  | some (.num n) => .ok n
  | some _ => .error "json: cannot unmarshal value into field of type int"

/-- Decode a JSON value into a Go `string` field whose current value is `cur`. -/
def goString (cur : String) : Option Json → Except String String
  | none => .ok cur
  | some .null => .ok cur
  | some (.str s) => .ok s
  | some _ => .error "json: cannot unmarshal value into field of type string"

/-- Decode a JSON value into a Go `bool` field whose current value is `cur`. -/
def goBool (cur : Bool) : Option Json → Except String Bool
  | none => .ok cur
  | some .null => .ok cur
  | some (.bool b) => .ok b
  | some _ => .error "json: cannot unmarshal value into field of type bool"

/-- Decode a JSON value into a Go pointer field (fresh, so nil): absent or
null leaves it nil; otherwise the pointee is decoded with `dec`. -/
def goPtr (dec : Json → Except String β) : Option Json → Except String (Option β)
  | none => .ok none
  | some .null => .ok none
  | some j => (dec j).map some

/-- Decode one element of a `[]string`. -/
def decStringElem : Json → Except String String
  | .str s => .ok s
  | .null => .ok ""
  | _ => .error "json: cannot unmarshal value into slice element of type string"

/-- Decode a JSON value into a Go `[]string` field. -/
def goStringList (cur : List String) : Option Json → Except String (List String)
  | none => .ok cur
  | some .null => .ok cur
  | some (.arr xs) => xs.mapM decStringElem
  | some _ => .error "json: cannot unmarshal value into field of type slice"

/-! ## Account events (src/account_events.go) -/

/-- EventStatus constants reflect the current status of an Event
(a Go string-typed enum, kept as an opaque string as the source does). -/
abbrev EventStatus := String

/-- EventAction constants represent the actions that cause an Event. -/
abbrev EventAction := String

/-- EntityType constants are the entities an Event can be related to. -/
abbrev EntityType := String

/-- EventEntity provides detailed information about the Event's associated
entity.  `ID` is declared `any` in the source ("may be a string or int, it
depends on the EntityType"); a Go `any` holding a decoded JSON token is
embedded as the `Json` token itself (a nil interface is `Json.null`). -/
structure EventEntity where
  ID : Json
  Label : String
  Type' : EntityType
  Status : String
  URL : String

/-- Event represents an action taken on the Account. -/
structure Event where
  ID : Int
  Status : EventStatus
  Action : EventAction
  PercentComplete : Int
  Rate : Option String
  Read : Bool
  Seen : Bool
  TimeRemaining : Option Int
  Username : String
  Entity : Option EventEntity
  SecondaryEntity : Option EventEntity
  Created : Option DateTime

/-- Structural decode of an `EventEntity` object.  The `id` field is
`any`-typed: whatever JSON token appears is stored untyped, with no
validation at decode time; a missing or null id is a nil interface. -/
def decodeEventEntity (j : Json) : Except String EventEntity :=
  match j with
  | .obj fs => do
    let label ← goString "" (jsonLookup fs "label")
    let typ ← goString "" (jsonLookup fs "type")
    let status ← goString "" (jsonLookup fs "status")
    let url ← goString "" (jsonLookup fs "url")
    pure { ID := (jsonLookup fs "id").getD .null
           Label := label, Type' := typ, Status := status, URL := url }
  | .null => .ok { ID := .null, Label := "", Type' := "", Status := "", URL := "" }
  | _ => .error "json: cannot unmarshal value into Go value of type EventEntity"

/-- Embeds `Event.UnmarshalJSON`: structural decode of the standard fields through
the `Mask` wrapper, with `created` decoded as a `*parseabletime.ParseableTime`
(fallible — its error fails the whole record) and `time_remaining` captured
as a raw message handed to the total `duration.UnmarshalTimeRemaining`. -/
def decodeEvent (j : Json) : Except String Event :=
  match j with
  | .obj fs => do
    let id ← goInt 0 (jsonLookup fs "id")
    let status ← goString "" (jsonLookup fs "status")
    let action ← goString "" (jsonLookup fs "action")
    let pct ← goInt 0 (jsonLookup fs "percent_complete")
    let rate ← goPtr decStringElem (jsonLookup fs "rate")
    let read ← goBool false (jsonLookup fs "read")
    let seen ← goBool false (jsonLookup fs "seen")
    let username ← goString "" (jsonLookup fs "username")
    let entity ← goPtr decodeEventEntity (jsonLookup fs "entity")
    let secondary ← goPtr decodeEventEntity (jsonLookup fs "secondary_entity")
    let created ← parseTimestampField (jsonLookup fs "created")
    pure { ID := id, Status := status, Action := action, PercentComplete := pct
           Rate := rate, Read := read, Seen := seen
           TimeRemaining := UnmarshalTimeRemaining (jsonLookup fs "time_remaining")
           Username := username, Entity := entity, SecondaryEntity := secondary
           Created := created }
  | _ => .error "json: cannot unmarshal value into Go value of type Event"

/-! ## Instances (src/unnamed/part_000) -/

/-- InstanceStatus constants reflect the current status of an Instance. -/
abbrev InstanceStatus := String

/-- InstanceMigrationType ("warm" or "cold"). -/
abbrev InstanceMigrationType := String

/-- InstanceSpec represents a linode spec. -/
structure InstanceSpec where
  Disk : Int
  Memory : Int
  VCPUs : Int
  Transfer : Int
  GPUs : Int
deriving DecidableEq

/-- InstanceAlert represents a metric alert. -/
structure InstanceAlert where
  CPU : Int
  Io : Int   -- the Go field is named IO; renamed to avoid clashing with the Lean IO namespace
  NetworkIn : Int
  NetworkOut : Int
  TransferQuota : Int
deriving DecidableEq

/-- The anonymous schedule struct nested in `InstanceBackup`. -/
structure InstanceBackupSchedule where
  Day : String
  Window : String
deriving DecidableEq

/-- InstanceBackup represents backup settings for an instance. -/
structure InstanceBackup where
  Available : Bool
  Enabled : Bool
  Schedule : InstanceBackupSchedule
deriving DecidableEq

/-- InstancePlacementGroup represents information about the placement group
this Linode is a part of. -/
structure InstancePlacementGroup where
  ID : Int
  Label : String
  AffinityType : String
  IsStrict : Bool
deriving DecidableEq

/-- Instance represents a linode object.  `IPv4 []*net.IP` is embedded as a
list of optional strings (`net.IP` text form; its format validation lives in
the external `net` package). -/
structure Instance where
  ID : Int
  Created : Option DateTime
  Updated : Option DateTime
  Region : String
  Alerts : Option InstanceAlert
  Backups : Option InstanceBackup
  Image : String
  Group : String
  IPv4 : List (Option String)
  IPv6 : String
  Label : String
  Type' : String
  Status : InstanceStatus
  HasUserData : Bool
  Hypervisor : String
  HostUUID : String
  Specs : Option InstanceSpec
  WatchdogEnabled : Bool
  Tags : List String
  PlacementGroup : Option InstancePlacementGroup

/-- InstanceMetadataOptions specifies Instance creation fields that relate
to the Linode Metadata service. -/
structure InstanceMetadataOptions where
  UserData : String
deriving DecidableEq

/-- The type `InstanceConfigInterfaceCreateOptions` is declared outside the provided
sources; its serialized form is carried as an opaque JSON value. -/
def InstanceConfigInterfaceCreateOptions := Json

/-- InstanceCreatePlacementGroupOptions represents the placement group to
create this Linode under. -/
structure InstanceCreatePlacementGroupOptions where
  ID : Int
  CompliantOnly : Option Bool

/-- InstanceCreateOptions require only Region and Type.  Creation fields
that need to be set explicitly false, "", or 0 use pointers (`Option`). -/
structure InstanceCreateOptions where
  Region : String
  Type' : String
  Label : String
  RootPass : String
  AuthorizedKeys : List String
  AuthorizedUsers : List String
  StackScriptID : Int
  StackScriptData : List (String × String)
  BackupID : Int
  Image : String
  Interfaces : List InstanceConfigInterfaceCreateOptions
  BackupsEnabled : Bool
  PrivateIP : Bool
  Tags : List String
  Metadata : Option InstanceMetadataOptions
  FirewallID : Int
  PlacementGroup : Option InstanceCreatePlacementGroupOptions
  SwapSize : Option Int
  Booted : Option Bool
  Group : String

/-- InstanceUpdateOptions is an options struct used when Updating an
Instance. -/
structure InstanceUpdateOptions where
  Label : String
  Backups : Option InstanceBackup
  Alerts : Option InstanceAlert
  WatchdogEnabled : Option Bool
  Tags : Option (List String)
  Group : Option String
deriving DecidableEq

/-- InstanceCloneOptions is an options struct sent when Cloning an
Instance. -/
structure InstanceCloneOptions where
  Region : String
  Type' : String
  LinodeID : Int
  Label : String
  BackupsEnabled : Bool
  Disks : List Int
  Configs : List Int
  PrivateIP : Bool
  Metadata : Option InstanceMetadataOptions
  PlacementGroup : Option InstanceCreatePlacementGroupOptions
  Group : String

/-- InstanceResizeOptions is an options struct used when resizing an
instance. -/
structure InstanceResizeOptions where
  Type' : String
  MigrationType : InstanceMigrationType
  AllowAutoDiskResize : Option Bool
deriving DecidableEq

/-- Decode of `InstanceSpec`. -/
def decodeInstanceSpec (j : Json) : Except String InstanceSpec :=
  match j with
  | .obj fs => do
    let disk ← goInt 0 (jsonLookup fs "disk")
    let memory ← goInt 0 (jsonLookup fs "memory")
    let vcpus ← goInt 0 (jsonLookup fs "vcpus")
    let transfer ← goInt 0 (jsonLookup fs "transfer")
    let gpus ← goInt 0 (jsonLookup fs "gpus")
    pure { Disk := disk, Memory := memory, VCPUs := vcpus
           Transfer := transfer, GPUs := gpus }
  | .null => .ok { Disk := 0, Memory := 0, VCPUs := 0, Transfer := 0, GPUs := 0 }
  | _ => .error "json: cannot unmarshal value into Go value of type InstanceSpec"

/-- Decode of `InstanceAlert`. -/
def decodeInstanceAlert (j : Json) : Except String InstanceAlert :=
  match j with
  | .obj fs => do
    let cpu ← goInt 0 (jsonLookup fs "cpu")
    let io ← goInt 0 (jsonLookup fs "io")
    let nin ← goInt 0 (jsonLookup fs "network_in")
    let nout ← goInt 0 (jsonLookup fs "network_out")
    let tq ← goInt 0 (jsonLookup fs "transfer_quota")
    pure { CPU := cpu, Io := io, NetworkIn := nin, NetworkOut := nout
           TransferQuota := tq }
  | .null => .ok { CPU := 0, Io := 0, NetworkIn := 0, NetworkOut := 0, TransferQuota := 0 }
  | _ => .error "json: cannot unmarshal value into Go value of type InstanceAlert"

/-- Decode of the nested backup schedule struct. -/
def decodeInstanceBackupSchedule (j : Json) : Except String InstanceBackupSchedule :=
  match j with
  | .obj fs => do
    let day ← goString "" (jsonLookup fs "day")
    let window ← goString "" (jsonLookup fs "window")
    pure { Day := day, Window := window }
  | .null => .ok { Day := "", Window := "" }
  | _ => .error "json: cannot unmarshal value into Go value of type schedule"

/-- Decode of `InstanceBackup`.  `schedule` is a non-pointer struct field:
missing or null leaves it at its zero value. -/
def decodeInstanceBackup (j : Json) : Except String InstanceBackup :=
  match j with
  | .obj fs => do
    let available ← goBool false (jsonLookup fs "available")
    let enabled ← goBool false (jsonLookup fs "enabled")
    let schedule ←
      match jsonLookup fs "schedule" with
      | none => pure { Day := "", Window := "" }
      | some sj => decodeInstanceBackupSchedule sj
    pure { Available := available, Enabled := enabled, Schedule := schedule }
  | .null => .ok { Available := false, Enabled := false, Schedule := { Day := "", Window := "" } }
  | _ => .error "json: cannot unmarshal value into Go value of type InstanceBackup"

/-- Decode of `InstancePlacementGroup`. -/
def decodeInstancePlacementGroup (j : Json) : Except String InstancePlacementGroup :=
  match j with
  | .obj fs => do
    let id ← goInt 0 (jsonLookup fs "id")
    let label ← goString "" (jsonLookup fs "label")
    let affinity ← goString "" (jsonLookup fs "affinity_type")
    let strict ← goBool false (jsonLookup fs "is_strict")
    pure { ID := id, Label := label, AffinityType := affinity, IsStrict := strict }
  | .null => .ok { ID := 0, Label := "", AffinityType := "", IsStrict := false }
  | _ => .error "json: cannot unmarshal value into Go value of type InstancePlacementGroup"

/-- Decode one element of `[]*net.IP` (a pointer: null stays nil). -/
def decIPElem : Json → Except String (Option String)
  | .null => .ok none
  | .str s => .ok (some s)
  | _ => .error "json: cannot unmarshal value into slice element of type net.IP"

/-- Decode a JSON value into the `ipv4 []*net.IP` field. -/
def goIPList (cur : List (Option String)) : Option Json → Except String (List (Option String))
  | none => .ok cur
  | some .null => .ok cur
  | some (.arr xs) => xs.mapM decIPElem
  | some _ => .error "json: cannot unmarshal value into field of type slice"

/-- Embeds `Instance.UnmarshalJSON`: structural decode of the standard fields
through the `Mask` wrapper, with `created` and `updated` decoded as
`*parseabletime.ParseableTime` (fallible — an error fails the whole
record). -/
def decodeInstance (j : Json) : Except String Instance :=
  match j with
  | .obj fs => do
    let id ← goInt 0 (jsonLookup fs "id")
    let region ← goString "" (jsonLookup fs "region")
    let alerts ← goPtr decodeInstanceAlert (jsonLookup fs "alerts")
    let backups ← goPtr decodeInstanceBackup (jsonLookup fs "backups")
    let image ← goString "" (jsonLookup fs "image")
    let group ← goString "" (jsonLookup fs "group")
    let ipv4 ← goIPList [] (jsonLookup fs "ipv4")
    let ipv6 ← goString "" (jsonLookup fs "ipv6")
    let label ← goString "" (jsonLookup fs "label")
    let typ ← goString "" (jsonLookup fs "type")
    let status ← goString "" (jsonLookup fs "status")
    let hasUserData ← goBool false (jsonLookup fs "has_user_data")
    let hypervisor ← goString "" (jsonLookup fs "hypervisor")
    let hostUUID ← goString "" (jsonLookup fs "host_uuid")
    let specs ← goPtr decodeInstanceSpec (jsonLookup fs "specs")
    let watchdog ← goBool false (jsonLookup fs "watchdog_enabled")
    let tags ← goStringList [] (jsonLookup fs "tags")
    let pg ← goPtr decodeInstancePlacementGroup (jsonLookup fs "placement_group")
    let created ← parseTimestampField (jsonLookup fs "created")
    let updated ← parseTimestampField (jsonLookup fs "updated")
    pure { ID := id, Created := created, Updated := updated, Region := region
           Alerts := alerts, Backups := backups, Image := image, Group := group
           IPv4 := ipv4, IPv6 := ipv6, Label := label, Type' := typ
           Status := status, HasUserData := hasUserData, Hypervisor := hypervisor
           HostUUID := hostUUID, Specs := specs, WatchdogEnabled := watchdog
           Tags := tags, PlacementGroup := pg }
  | _ => .error "json: cannot unmarshal value into Go value of type Instance"

/-- Embeds `Instance.GetUpdateOptions`: converts an Instance to
`InstanceUpdateOptions` for use in `UpdateInstance` (pointers to the
instance's own fields become `some` of their values). -/
def Instance.GetUpdateOptions (i : Instance) : InstanceUpdateOptions :=
  { Label := i.Label
    Group := some i.Group
    Backups := i.Backups
    Alerts := i.Alerts
    WatchdogEnabled := some i.WatchdogEnabled
    Tags := some i.Tags }

/-! ## Placement groups (src/placement_groups.go) -/

/-- PlacementGroupAffinityType is an enum that determines the affinity
policy for Linodes in a placement group. -/
abbrev PlacementGroupAffinityType := String

/-- PlacementGroupMember represents a single Linode assigned to a
placement group. -/
structure PlacementGroupMember where
  LinodeID : Int
  IsCompliant : Bool
deriving DecidableEq

/-- PlacementGroup represents a Linode placement group. -/
structure PlacementGroup where
  ID : Int
  Label : String
  Region : String
  AffinityType : PlacementGroupAffinityType
  IsCompliant : Bool
  IsStrict : Bool
  Members : List PlacementGroupMember
deriving DecidableEq

/-- PlacementGroupCreateOptions represents the options to use when
creating a placement group. -/
structure PlacementGroupCreateOptions where
  Label : String
  Region : String
  AffinityType : PlacementGroupAffinityType
  IsStrict : Bool
deriving DecidableEq

/-- PlacementGroupUpdateOptions represents the options to use when
updating a placement group. -/
structure PlacementGroupUpdateOptions where
  Label : String
deriving DecidableEq

/-! ## Pagination

The page-fetch oracle stands for one `resty` GET of a listing endpoint at a
given page number, already passed through `coupleAPIErrors`: it returns the
decoded page envelope or the classified error. -/

/-- A paged response envelope: the embedded `PageOptions` counts (`pages`,
`results`) together with the page's `data` records. -/
structure PagedResponse (α : Type) where
  pages : Nat
  results : Nat
  data : List α

/-- A page-fetch oracle: page number to envelope or error. -/
abbrev Fetch (α : Type) := Nat → Except ApiError (PagedResponse α)

/-- Embeds `castResult` (from `EventsPagedResponse.castResult` /
`InstancesPagedResponse.castResult`): performs the page fetch, appends the
page's records to the accumulated `Data`, and reports the envelope's
`Pages` and `Results` counts; a fetch error is returned as-is (the Go
version returns `(0, 0, err)`, and the counts are never read on error). -/
def castResult (acc : List α) (fetchRes : Except ApiError (PagedResponse α)) :
    Except ApiError (Nat × Nat × List α) :=
  match fetchRes with
  | .error e => .error e
  | .ok res => .ok (res.pages, res.results, acc ++ res.data)

/-- Sequential fetch of `remaining` further pages starting at page `p`,
threading the accumulated records `acc` and the trace `tr` of page numbers
fetched so far (the trace instruments the fetch count; it is not part of
the Go state).  A fetch error aborts immediately. -/
def listPagesFrom (fetch : Fetch α) :
    Nat → Nat → List α → List Nat → Except ApiError (List α) × List Nat
  | 0, _, acc, tr => (.ok acc, tr)
  | remaining + 1, p, acc, tr =>
    match castResult acc (fetch p) with
    | .error e => (.error e, tr ++ [p])
    | .ok (_, _, acc2) => listPagesFrom fetch remaining (p + 1) acc2 (tr ++ [p])

/-- Modelled from the spec: `Client.listHelper` (absent from the provided
sources) in the fetch-all-pages case — fetch page 1, read the total page
count from its envelope, then fetch pages 2, 3, ... sequentially until all
pages are retrieved, aborting the whole listing on the first error.
Returns the result together with the trace of pages fetched. -/
def listHelperT (fetch : Fetch α) : Except ApiError (List α) × List Nat :=
  match castResult [] (fetch 1) with
  | .error e => (.error e, [1])
  | .ok (pages, _, acc) => listPagesFrom fetch (pages - 1) 2 acc [1]

/-- The accumulated listing result of `listHelper`. -/
def listHelper (fetch : Fetch α) : Except ApiError (List α) :=
  (listHelperT fetch).1

/-- The page numbers fetched, in order, during `listHelper`. -/
def fetchedPages (fetch : Fetch α) : List Nat :=
  (listHelperT fetch).2

/-- Modelled from the spec: the generic `getPaginatedResults` helper
(absent from the provided sources) — same all-pages accumulation contract
as `listHelper`, returning the Go pair (records, error) with a nil record
slice on error. -/
def getPaginatedResults (fetch : Fetch α) : Option (List α) × Option ApiError :=
  match listHelper fetch with
  | .error e => (none, some e)
  | .ok d => (some d, none)

/-- Embeds `Client.ListEvents`: runs the pagination helper and returns
`(nil, err)` on failure, `(response.Data, nil)` on success. -/
def ListEvents (fetch : Fetch Event) : Option (List Event) × Option ApiError :=
  match listHelper fetch with
  | .error e => (none, some e)
  | .ok d => (some d, none)

/-- Embeds `Client.ListInstances`: runs the pagination helper and returns
`(nil, err)` on failure, `(response.Data, nil)` on success. -/
def ListInstances (fetch : Fetch Instance) : Option (List Instance) × Option ApiError :=
  match listHelper fetch with
  | .error e => (none, some e)
  | .ok d => (some d, none)

/-- Embeds `Client.ListPlacementGroups`: delegates to `getPaginatedResults`. -/
def ListPlacementGroups (fetch : Fetch PlacementGroup) :
    Option (List PlacementGroup) × Option ApiError :=
  getPaginatedResults fetch

/-- The listing run reaches a page whose fetch fails with `e`: either page 1
itself fails, or page 1 succeeds and some page `k` within its reported page
count fails after pages `2, ..., k - 1` all succeed. -/
def fetchFailsAt (fetch : Fetch α) (e : ApiError) : Prop :=
  fetch 1 = .error e ∨
    ∃ r1 k, fetch 1 = .ok r1 ∧ 2 ≤ k ∧ k ≤ r1.pages ∧
      (∀ j, 2 ≤ j → j < k → ∃ rj, fetch j = .ok rj) ∧ fetch k = .error e

/-! ## Serialization of Options Records

`encoding/json` marshalling of the options structs, field by field in
struct order.  A field tagged `omitempty` is dropped when its value is
Go-empty (zero number, empty string, false, nil pointer, empty slice/map);
a pointer field that is set is always emitted, even when it points at
false/zero. -/

/-- Emit a string field tagged `omitempty`. -/
def omitemptyString (name s : String) : List (String × Json) :=
  if s = "" then [] else [(name, .str s)]

/-- Emit an int field tagged `omitempty`. -/
def omitemptyInt (name : String) (n : Int) : List (String × Json) :=
  if n = 0 then [] else [(name, .num n)]

/-- Emit a bool field tagged `omitempty`. -/
def omitemptyBool (name : String) (b : Bool) : List (String × Json) :=
  if b then [(name, .bool b)] else []

/-- Emit a slice/map field tagged `omitempty` from its encoded elements. -/
def omitemptyList (name : String) (xs : List Json) : List (String × Json) :=
  if xs.isEmpty then [] else [(name, .arr xs)]

/-- Emit a pointer field tagged `omitempty`: present exactly when set. -/
def omitemptyOpt (name : String) (enc : α → Json) : Option α → List (String × Json)
  | none => []
  | some v => [(name, enc v)]

/-- Marshal `InstanceMetadataOptions`. -/
def marshalInstanceMetadataOptions (m : InstanceMetadataOptions) : Json :=
  .obj (omitemptyString "user_data" m.UserData)

/-- Marshal `InstanceCreatePlacementGroupOptions`: `id` is untagged (always
emitted); `compliant_only` is a pointer with `omitempty`. -/
def marshalInstanceCreatePlacementGroupOptions
    (pg : InstanceCreatePlacementGroupOptions) : Json :=
  .obj ([("id", .num pg.ID)] ++ omitemptyOpt "compliant_only" Json.bool pg.CompliantOnly)

/-- Marshal a `map[string]string`. -/
def marshalStringMap (m : List (String × String)) : Json :=
  .obj (m.map (fun p => (p.1, .str p.2)))

/-- Marshal `InstanceCreateOptions`.  `region` and `type` carry no
`omitempty` and are always sent; `swap_size` and `booted` are pointers so
an explicit 0/false can be expressed. -/
def marshalInstanceCreateOptions (o : InstanceCreateOptions) : Json :=
  .obj ([("region", .str o.Region), ("type", .str o.Type')]
    ++ omitemptyString "label" o.Label
    ++ omitemptyString "root_pass" o.RootPass
    ++ omitemptyList "authorized_keys" (o.AuthorizedKeys.map Json.str)
    ++ omitemptyList "authorized_users" (o.AuthorizedUsers.map Json.str)
    ++ omitemptyInt "stackscript_id" o.StackScriptID
    ++ (if o.StackScriptData.isEmpty then []
        else [("stackscript_data", marshalStringMap o.StackScriptData)])
    ++ omitemptyInt "backup_id" o.BackupID
    ++ omitemptyString "image" o.Image
    ++ omitemptyList "interfaces" o.Interfaces
    ++ omitemptyBool "backups_enabled" o.BackupsEnabled
    ++ omitemptyBool "private_ip" o.PrivateIP
    ++ omitemptyList "tags" (o.Tags.map Json.str)
    ++ omitemptyOpt "metadata" marshalInstanceMetadataOptions o.Metadata
    ++ omitemptyInt "firewall_id" o.FirewallID
    ++ omitemptyOpt "placement_group" marshalInstanceCreatePlacementGroupOptions o.PlacementGroup
    ++ omitemptyOpt "swap_size" Json.num o.SwapSize
    ++ omitemptyOpt "booted" Json.bool o.Booted
    ++ omitemptyString "group" o.Group)

/-- Marshal the nested backup schedule (its fields carry `omitempty`, but a
struct-typed field itself is never dropped by `omitempty`). -/
def marshalInstanceBackupSchedule (s : InstanceBackupSchedule) : Json :=
  .obj (omitemptyString "day" s.Day ++ omitemptyString "window" s.Window)

/-- Marshal `InstanceBackup`. -/
def marshalInstanceBackup (b : InstanceBackup) : Json :=
  .obj (omitemptyBool "available" b.Available
    ++ omitemptyBool "enabled" b.Enabled
    ++ [("schedule", marshalInstanceBackupSchedule b.Schedule)])

/-- Marshal `InstanceAlert` (no `omitempty` tags: all fields sent). -/
def marshalInstanceAlert (a : InstanceAlert) : Json :=
  .obj [("cpu", .num a.CPU), ("io", .num a.Io), ("network_in", .num a.NetworkIn),
        ("network_out", .num a.NetworkOut), ("transfer_quota", .num a.TransferQuota)]

/-- Marshal `InstanceUpdateOptions`: every field carries `omitempty`;
`watchdog_enabled`, `tags` and `group` are pointers so presence tracks
whether the caller set them. -/
def marshalInstanceUpdateOptions (o : InstanceUpdateOptions) : Json :=
  .obj (omitemptyString "label" o.Label
    ++ omitemptyOpt "backups" marshalInstanceBackup o.Backups
    ++ omitemptyOpt "alerts" marshalInstanceAlert o.Alerts
    ++ omitemptyOpt "watchdog_enabled" Json.bool o.WatchdogEnabled
    ++ omitemptyOpt "tags" (fun ts => Json.arr (ts.map Json.str)) o.Tags
    ++ omitemptyOpt "group" Json.str o.Group)

/-- Marshal `PlacementGroupUpdateOptions`: `label` carries `omitempty`. -/
def marshalPlacementGroupUpdateOptions (o : PlacementGroupUpdateOptions) : Json :=
  .obj (omitemptyString "label" o.Label)

/-! ## Body-carrying client methods

`json.Marshal` is an external collaborator whose failure modes
(un-encodable values) lie outside the embedded fragment, so each client
method is parameterized by a `marshal` oracle, and by the HTTP oracle
`http`.  Each method returns its Go result together with the trace of HTTP
requests it issued. -/

/-- One HTTP request as issued by a client method. -/
structure Request where
  method : String
  path : String
  body : Option String
deriving DecidableEq

/-- The error channel of a client method. -/
inductive CallError where
  | serialization : String → CallError
  | api : ApiError → CallError
  | decode : String → CallError
deriving DecidableEq

/-- An HTTP oracle: request to response JSON or classified error. -/
abbrev Http := Request → Except ApiError Json

/-- Embeds `Client.CreateInstance`: marshal the options (returning the
serialization error with no request issued on failure), POST the body,
and decode the resulting Instance. -/
def CreateInstance (marshal : InstanceCreateOptions → Except String String)
    (http : Http) (opts : InstanceCreateOptions) :
    Except CallError Instance × List Request :=
  match marshal opts with
  | .error err => (.error (.serialization err), [])
  | .ok body =>
    let req : Request := { method := "POST", path := "linode/instances", body := some body }
    match http req with
    | .error e => (.error (.api e), [req])
    | .ok j =>
      match decodeInstance j with
      | .error msg => (.error (.decode msg), [req])
      | .ok inst => (.ok inst, [req])

/-- Embeds `Client.UpdateInstance`: marshal the options (returning the
serialization error with no request issued on failure), PUT the body,
and decode the resulting Instance. -/
def UpdateInstance (marshal : InstanceUpdateOptions → Except String String)
    (http : Http) (linodeID : Int) (opts : InstanceUpdateOptions) :
    Except CallError Instance × List Request :=
  match marshal opts with
  | .error err => (.error (.serialization err), [])
  | .ok body =>
    let req : Request :=
      { method := "PUT", path := "linode/instances/" ++ toString linodeID, body := some body }
    match http req with
    | .error e => (.error (.api e), [req])
    | .ok j =>
      match decodeInstance j with
      | .error msg => (.error (.decode msg), [req])
      | .ok inst => (.ok inst, [req])

/-- Embeds `Client.RenameInstance`: renames an Instance: delegates to
`UpdateInstance` with an options record holding only the label. -/
def RenameInstance (marshal : InstanceUpdateOptions → Except String String)
    (http : Http) (linodeID : Int) (label : String) :
    Except CallError Instance × List Request :=
  UpdateInstance marshal http linodeID
    { Label := label, Backups := none, Alerts := none
      WatchdogEnabled := none, Tags := none, Group := none }

/-- Embeds `Client.CloneInstance`: marshal the options (returning the
serialization error with no request issued on failure), POST the body to
the clone path, and decode the resulting Instance. -/
def CloneInstance (marshal : InstanceCloneOptions → Except String String)
    (http : Http) (linodeID : Int) (opts : InstanceCloneOptions) :
    Except CallError Instance × List Request :=
  match marshal opts with
  | .error err => (.error (.serialization err), [])
  | .ok body =>
    let req : Request :=
      { method := "POST", path := "linode/instances/" ++ toString linodeID ++ "/clone"
        body := some body }
    match http req with
    | .error e => (.error (.api e), [req])
    | .ok j =>
      match decodeInstance j with
      | .error msg => (.error (.decode msg), [req])
      | .ok inst => (.ok inst, [req])

/-- Embeds `Client.ResizeInstance`: marshal the options (returning the
serialization error with no request issued on failure) and POST the body
to the resize path; no response body is decoded. -/
def ResizeInstance (marshal : InstanceResizeOptions → Except String String)
    (http : Http) (linodeID : Int) (opts : InstanceResizeOptions) :
    Except CallError Unit × List Request :=
  match marshal opts with
  | .error err => (.error (.serialization err), [])
  | .ok body =>
    let req : Request :=
      { method := "POST", path := "linode/instances/" ++ toString linodeID ++ "/resize"
        body := some body }
    match http req with
    | .error e => (.error (.api e), [req])
    | .ok _ => (.ok (), [req])

/-! ## The spec's proposed representation of the related-entity id

For the refinement comparison only: this pair of definitions follows the
SPEC's words (design note on the polymorphic identifier), not the source. -/

/-- The spec's tagged union over IntegerID and StringID. -/
inductive EntityIDSpec where
  | IntegerID : Int → EntityIDSpec
  | StringID : String → EntityIDSpec
deriving DecidableEq

/-- The spec's decode of the related-entity id: resolved at decode time
based on the JSON token type, rejecting any token that is neither an
integer nor a string. -/
def decodeEntityIDSpec : Json → Except String EntityIDSpec
  | .num n => .ok (.IntegerID n)
  | .str s => .ok (.StringID s)
  | _ => .error "DecodeError: entity id must be an integer or a string"

/-! ## General lemmas -/

/-- Inversion of a successful `Except` bind. -/
theorem bind_ok_iff {ε α β : Type} {x : Except ε α} {f : α → Except ε β} {b : β} :
    (x >>= f) = .ok b ↔ ∃ a, x = .ok a ∧ f a = .ok b := by
  cases x <;> simp [Bind.bind, Except.bind]

/-- Inversion of `pure` against `.ok`. -/
theorem pure_ok_iff {ε α : Type} {a b : α} :
    (pure a : Except ε α) = .ok b ↔ a = b := by
  simp [pure, Except.pure]

/-- A successful `Event` decode resolves `Created` through the tolerant
timestamp decoder and `TimeRemaining` through the total duration decoder. -/
theorem decodeEvent_ok {fs : List (String × Json)} {ev : Event}
    (h : decodeEvent (.obj fs) = .ok ev) :
    parseTimestampField (jsonLookup fs "created") = .ok ev.Created ∧
    ev.TimeRemaining = UnmarshalTimeRemaining (jsonLookup fs "time_remaining") := by
  simp only [decodeEvent, bind_ok_iff, pure_ok_iff] at h
  obtain ⟨id, hid, status, hst, action, hac, pct, hp, rate, hr, read, hrd, seen, hsn,
    username, hu, entity, he, secondary, hs2, created, hc, hev⟩ := h
  subst hev
  exact ⟨hc, rfl⟩

/-- A successful `Event` decode can only start from a JSON object. -/
theorem decodeEvent_ok_obj {j : Json} {ev : Event}
    (h : decodeEvent j = .ok ev) : ∃ fs, j = .obj fs := by
  cases j <;> simp_all [decodeEvent]

/-- A successful `Instance` decode resolves `Created` and `Updated` through
the tolerant timestamp decoder. -/
theorem decodeInstance_ok {fs : List (String × Json)} {inst : Instance}
    (h : decodeInstance (.obj fs) = .ok inst) :
    parseTimestampField (jsonLookup fs "created") = .ok inst.Created ∧
    parseTimestampField (jsonLookup fs "updated") = .ok inst.Updated := by
  simp only [decodeInstance, bind_ok_iff, pure_ok_iff] at h
  obtain ⟨id, hid, region, hre, alerts, hal, backups, hba, image, him, group, hgr,
    ipv4, hip, ipv6, hip6, label, hla, typ, hty, status, hst, hud, hhud, hyp, hhy,
    host, hho, specs, hsp, wd, hwd, tags, htg, pg, hpg, created, hc, updated, hu, hin⟩ := h
  subst hin
  exact ⟨hc, hu⟩

/-- A successful `Instance` decode can only start from a JSON object. -/
theorem decodeInstance_ok_obj {j : Json} {inst : Instance}
    (h : decodeInstance j = .ok inst) : ∃ fs, j = .obj fs := by
  cases j <;> simp_all [decodeInstance]

/-- If the tolerant timestamp decoder rejects the `created` field, the
whole `Event` decode fails. -/
theorem decodeEvent_created_error (msg : String) {fs : List (String × Json)}
    (h : parseTimestampField (jsonLookup fs "created") = .error msg) :
    ∃ e, decodeEvent (.obj fs) = .error e := by
  cases hres : decodeEvent (.obj fs) with
  | error e => exact ⟨e, rfl⟩
  | ok ev =>
    have := (decodeEvent_ok hres).1
    rw [h] at this
    exact absurd this (by simp)

/-- If the tolerant timestamp decoder rejects `created` or `updated`, the
whole `Instance` decode fails. -/
theorem decodeInstance_timestamp_error (msg : String) {fs : List (String × Json)}
    (h : parseTimestampField (jsonLookup fs "created") = .error msg ∨
      parseTimestampField (jsonLookup fs "updated") = .error msg) :
    ∃ e, decodeInstance (.obj fs) = .error e := by
  cases hres : decodeInstance (.obj fs) with
  | error e => exact ⟨e, rfl⟩
  | ok inst =>
    obtain ⟨hc, hu⟩ := decodeInstance_ok hres
    cases h with
    | inl h => rw [h] at hc; exact absurd hc (by simp)
    | inr h => rw [h] at hu; exact absurd hu (by simp)

/-! ## Claim theorems -/

/-- C4: the duration decoder for an Event's `time_remaining` field is total
(its type `Option Json → Option Int` admits no error channel): null or an
absent field decodes to no value, a bare integer `n` decodes to `n`
seconds, a parseable duration string decodes to its equivalent in seconds,
and an unparseable string decodes to no value rather than an error. -/
theorem claim_C4 :
    UnmarshalTimeRemaining none = none ∧
    UnmarshalTimeRemaining (some .null) = none ∧
    (∀ n : Int, UnmarshalTimeRemaining (some (.num n)) = some n) ∧
    (∀ s secs, parseDurationString s = some secs →
      UnmarshalTimeRemaining (some (.str s)) = some secs) ∧
    (∀ s, parseDurationString s = none →
      UnmarshalTimeRemaining (some (.str s)) = none) :=
  ⟨rfl, rfl, fun _ => rfl,
   fun s secs h => by simp [UnmarshalTimeRemaining, h],
   fun s h => by simp [UnmarshalTimeRemaining, h]⟩

/-- Witness for C4 at "1:02:03" (3723 seconds), "bogus" and 42. -/
theorem claim_C4_witness :
    UnmarshalTimeRemaining (some (.str "1:02:03")) = some 3723 ∧
    UnmarshalTimeRemaining (some (.str "bogus")) = none ∧
    UnmarshalTimeRemaining (some (.num 42)) = some 42 ∧
    UnmarshalTimeRemaining (some .null) = none ∧
    UnmarshalTimeRemaining none = none :=
  ⟨claim_C4.2.2.2.1 "1:02:03" 3723 rfl, claim_C4.2.2.2.2 "bogus" rfl,
   claim_C4.2.2.1 42, claim_C4.2.1, claim_C4.1⟩

/-- C6: for every body-carrying operation, a failure of the options
serialization oracle makes the call return that serialization error with an
empty request trace — no HTTP request is issued. -/
theorem claim_C6 (mC : InstanceCreateOptions → Except String String)
    (mU : InstanceUpdateOptions → Except String String)
    (mCl : InstanceCloneOptions → Except String String)
    (mR : InstanceResizeOptions → Except String String)
    (http : Http) (oc : InstanceCreateOptions) (ou : InstanceUpdateOptions)
    (ocl : InstanceCloneOptions) (orz : InstanceResizeOptions)
    (ec eu ecl er : String) (idU idCl idR : Int)
    (hc : mC oc = .error ec) (hu : mU ou = .error eu)
    (hcl : mCl ocl = .error ecl) (hr : mR orz = .error er) :
    CreateInstance mC http oc = (.error (.serialization ec), []) ∧
    UpdateInstance mU http idU ou = (.error (.serialization eu), []) ∧
    CloneInstance mCl http idCl ocl = (.error (.serialization ecl), []) ∧
    ResizeInstance mR http idR orz = (.error (.serialization er), []) := by
  refine ⟨?_, ?_, ?_, ?_⟩ <;>
    simp [CreateInstance, UpdateInstance, CloneInstance, ResizeInstance, hc, hu, hcl, hr]

/-- Witness for C6: a marshal oracle that rejects its input makes each of
the four calls fail with that error and issue no request. -/
theorem claim_C6_witness :
    CreateInstance (fun _ => .error "unencodable") (fun _ => .error (.transport "unused"))
      ⟨"", "", "", "", [], [], 0, [], 0, "", [], false, false, [], none, 0, none, none, none, ""⟩ =
      (.error (.serialization "unencodable"), []) ∧
    UpdateInstance (fun _ => .error "unencodable") (fun _ => .error (.transport "unused")) 7
      ⟨"", none, none, none, none, none⟩ = (.error (.serialization "unencodable"), []) ∧
    CloneInstance (fun _ => .error "unencodable") (fun _ => .error (.transport "unused")) 7
      ⟨"", "", 0, "", false, [], [], false, none, none, ""⟩ =
      (.error (.serialization "unencodable"), []) ∧
    ResizeInstance (fun _ => .error "unencodable") (fun _ => .error (.transport "unused")) 7
      ⟨"", "", none⟩ = (.error (.serialization "unencodable"), []) :=
  claim_C6 _ _ _ _ _ _ _ _ _ _ _ _ _ 7 7 7 rfl rfl rfl rfl

/-- The remaining-pages loop aborts with the error of the first failing
fetch within its window, discarding the accumulator. -/
theorem listPagesFrom_error {α : Type} (fetch : Fetch α) (e : ApiError) (k : Nat)
    (hk : fetch k = .error e) :
    ∀ m p acc tr, p ≤ k → k < p + m →
      (∀ j, p ≤ j → j < k → ∃ rj, fetch j = .ok rj) →
      (listPagesFrom fetch m p acc tr).1 = .error e := by
  intro m
  induction m with
  | zero => intro p acc tr h1 h2 _; omega
  | succ m ih =>
    intro p acc tr h1 h2 hok
    by_cases hpk : p = k
    · subst hpk
      simp [listPagesFrom, castResult, hk]
    · obtain ⟨rp, hrp⟩ := hok p le_rfl (by omega)
      simp only [listPagesFrom, castResult, hrp]
      exact ih (p + 1) _ _ (by omega) (by omega) (fun j hj1 hj2 => hok j (by omega) hj2)

/-- A listing run that reaches a failing page surfaces exactly that error. -/
theorem listHelper_error {α : Type} {fetch : Fetch α} {e : ApiError}
    (h : fetchFailsAt fetch e) : listHelper fetch = .error e := by
  rcases h with h1 | ⟨r1, k, h1, hk2, hkp, hok, hke⟩
  · simp [listHelper, listHelperT, castResult, h1]
  · simp only [listHelper, listHelperT, castResult, h1]
    exact listPagesFrom_error fetch e k hke (r1.pages - 1) 2 r1.data [1]
      hk2 (by omega) hok

/-- The remaining-pages loop over an all-successful window returns the
accumulated concatenation in page order and fetches each page once. -/
theorem listPagesFrom_ok {α : Type} (fetch : Fetch α) (d : Nat → List α) :
    ∀ m p acc tr, (∀ j, p ≤ j → j < p + m → ∃ r, fetch j = .ok r ∧ r.data = d j) →
      listPagesFrom fetch m p acc tr =
        (.ok (acc ++ ((List.range' p m).map d).flatten), tr ++ List.range' p m) := by
  intro m
  induction m with
  | zero => intro p acc tr _; simp [listPagesFrom, List.range']
  | succ m ih =>
    intro p acc tr hok
    obtain ⟨r, hr, hd⟩ := hok p le_rfl (by omega)
    rw [List.range'_succ p m 1]
    simp only [listPagesFrom, castResult, hr, hd]
    rw [ih (p + 1) (acc ++ d p) (tr ++ [p]) (fun j hj1 hj2 => hok j (by omega) (by omega))]
    simp

/-- A listing over `n` all-successful pages (each reporting `n` total
pages) returns the pages' data concatenated in page order, fetching pages
`1, ..., n` exactly once each, in order. -/
theorem listHelperT_ok {α : Type} {fetch : Fetch α} {n : Nat} {d : Nat → List α}
    (hn : 1 ≤ n)
    (hok : ∀ k, 1 ≤ k → k ≤ n → ∃ r, fetch k = .ok r ∧ r.pages = n ∧ r.data = d k) :
    listHelperT fetch = (.ok (((List.range' 1 n).map d).flatten), List.range' 1 n) := by
  obtain ⟨r1, hr1, hp1, hd1⟩ := hok 1 le_rfl hn
  simp only [listHelperT, castResult, hr1, hp1, hd1, List.nil_append]
  rw [listPagesFrom_ok fetch d (n - 1) 2 (d 1) [1] (fun j hj1 hj2 => by
    obtain ⟨r, hr, _, hd⟩ := hok j (by omega) (by omega)
    exact ⟨r, hr, hd⟩)]
  have hsplit : List.range' 1 n = 1 :: List.range' 2 (n - 1) := by
    conv_lhs => rw [show n = (n - 1) + 1 by omega]
    exact List.range'_succ 1 (n - 1) 1
  rw [hsplit]
  simp

/-- C1: for every listing call, if the fetch of any page fails, the call
returns that page's error and a nil record list — the caller never observes
a partial accumulation from earlier pages. -/
theorem claim_C1 (fE : Fetch Event) (fI : Fetch Instance) (fP : Fetch PlacementGroup)
    (e1 e2 e3 : ApiError)
    (h1 : fetchFailsAt fE e1) (h2 : fetchFailsAt fI e2) (h3 : fetchFailsAt fP e3) :
    ListEvents fE = (none, some e1) ∧
    ListInstances fI = (none, some e2) ∧
    ListPlacementGroups fP = (none, some e3) := by
  refine ⟨?_, ?_, ?_⟩ <;>
    simp [ListEvents, ListInstances, ListPlacementGroups, getPaginatedResults,
      listHelper_error h1, listHelper_error h2, listHelper_error h3]

/-- Witness for C1: page 1 of 3 succeeds and page 2 fails with an API
error; each listing call returns nil records and that error. -/
theorem claim_C1_witness :
    ListEvents (fun k => if k = 1 then .ok ⟨3, 237, []⟩ else .error (.api 500 "boom"))
      = (none, some (.api 500 "boom")) ∧
    ListInstances (fun k => if k = 1 then .ok ⟨3, 237, []⟩ else .error (.api 500 "boom"))
      = (none, some (.api 500 "boom")) ∧
    ListPlacementGroups (fun k => if k = 1 then .ok ⟨3, 237, []⟩ else .error (.api 500 "boom"))
      = (none, some (.api 500 "boom")) := by
  have wE : fetchFailsAt
      ((fun k => if k = 1 then .ok ⟨3, 237, []⟩ else .error (.api 500 "boom")) : Fetch Event)
      (.api 500 "boom") :=
    Or.inr ⟨⟨3, 237, []⟩, 2, rfl, by omega, by decide,
      fun j hj1 hj2 => absurd hj2 (by omega), rfl⟩
  have wI : fetchFailsAt
      ((fun k => if k = 1 then .ok ⟨3, 237, []⟩ else .error (.api 500 "boom")) : Fetch Instance)
      (.api 500 "boom") :=
    Or.inr ⟨⟨3, 237, []⟩, 2, rfl, by omega, by decide,
      fun j hj1 hj2 => absurd hj2 (by omega), rfl⟩
  have wP : fetchFailsAt
      ((fun k => if k = 1 then .ok ⟨3, 237, []⟩ else .error (.api 500 "boom")) : Fetch PlacementGroup)
      (.api 500 "boom") :=
    Or.inr ⟨⟨3, 237, []⟩, 2, rfl, by omega, by decide,
      fun j hj1 hj2 => absurd hj2 (by omega), rfl⟩
  exact claim_C1 _ _ _ _ _ _ wE wI wP

/-- C2: a successful listing over `n` pages returns exactly the
concatenation of the pages' record lists in page order — no reordering, no
deduplication — and the fetch trace is exactly `[1, ..., n]`: one fetch per
page, in order. -/
theorem claim_C2 (n : Nat) (hn : 1 ≤ n)
    (fE : Fetch Event) (dE : Nat → List Event)
    (fI : Fetch Instance) (dI : Nat → List Instance)
    (fP : Fetch PlacementGroup) (dP : Nat → List PlacementGroup)
    (hE : ∀ k, 1 ≤ k → k ≤ n → ∃ r, fE k = .ok r ∧ r.pages = n ∧ r.data = dE k)
    (hI : ∀ k, 1 ≤ k → k ≤ n → ∃ r, fI k = .ok r ∧ r.pages = n ∧ r.data = dI k)
    (hP : ∀ k, 1 ≤ k → k ≤ n → ∃ r, fP k = .ok r ∧ r.pages = n ∧ r.data = dP k) :
    ListEvents fE = (some (((List.range' 1 n).map dE).flatten), none) ∧
    fetchedPages fE = List.range' 1 n ∧
    ListInstances fI = (some (((List.range' 1 n).map dI).flatten), none) ∧
    fetchedPages fI = List.range' 1 n ∧
    ListPlacementGroups fP = (some (((List.range' 1 n).map dP).flatten), none) ∧
    fetchedPages fP = List.range' 1 n := by
  have hTE := listHelperT_ok hn hE
  have hTI := listHelperT_ok hn hI
  have hTP := listHelperT_ok hn hP
  refine ⟨?_, ?_, ?_, ?_, ?_, ?_⟩ <;>
    simp [ListEvents, ListInstances, ListPlacementGroups, getPaginatedResults,
      listHelper, fetchedPages, hTE, hTI, hTP]

/-- The record value used by the C2 mock endpoint. -/
def eventW : Event :=
  { ID := 0, Status := "", Action := "", PercentComplete := 0, Rate := none
    Read := false, Seen := false, TimeRemaining := none, Username := ""
    Entity := none, SecondaryEntity := none, Created := none }

/-- The C2 mock endpoint: 3 pages of sizes 100, 100 and 37. -/
def mockFetch237 : Fetch Event := fun k =>
  if k = 1 then .ok ⟨3, 237, List.replicate 100 eventW⟩
  else if k = 2 then .ok ⟨3, 237, List.replicate 100 eventW⟩
  else if k = 3 then .ok ⟨3, 237, List.replicate 37 eventW⟩
  else .error (.api 404 "no such page")

/-- The per-page data served by the C2 mock endpoint. -/
def mockData237 : Nat → List Event := fun k =>
  if k = 1 then List.replicate 100 eventW
  else if k = 2 then List.replicate 100 eventW
  else List.replicate 37 eventW

/-- Witness for C2: the mock endpoint serving pages of sizes
100, 100, 37 yields exactly 237 records from exactly 3 page fetches. -/
theorem claim_C2_witness :
    ∃ l : List Event, ListEvents mockFetch237 = (some l, none) ∧ l.length = 237 ∧
      fetchedPages mockFetch237 = [1, 2, 3] := by
  have h := claim_C2 3 (by omega) mockFetch237 mockData237
    (fun _ => .ok ⟨3, 0, []⟩) (fun _ => [])
    (fun _ => .ok ⟨3, 0, []⟩) (fun _ => [])
    (by intro k h1 h2; interval_cases k <;> exact ⟨_, rfl, rfl, rfl⟩)
    (fun k _ _ => ⟨⟨3, 0, []⟩, rfl, rfl, rfl⟩)
    (fun k _ _ => ⟨⟨3, 0, []⟩, rfl, rfl, rfl⟩)
  refine ⟨((List.range' 1 3).map mockData237).flatten, h.1, ?_, ?_⟩
  · rfl
  · exact h.2.1.trans rfl

/-- C3: for JSON objects decoded into an Event or Instance record, a null
or absent timestamp field (`created`/`updated`) decodes to `none` — the nil
`*time.Time`, distinguishable from any zero-time value — and a timestamp
string matching none of the recognized formats fails the whole record
decode with a decode error propagated to the caller. -/
theorem claim_C3 :
    (∀ fs ev, decodeEvent (.obj fs) = .ok ev →
      (jsonLookup fs "created" = none ∨ jsonLookup fs "created" = some .null) →
      ev.Created = none) ∧
    (∀ fs s, jsonLookup fs "created" = some (.str s) → parseTimestampString s = none →
      ∃ e, decodeEvent (.obj fs) = .error e) ∧
    (∀ fs inst, decodeInstance (.obj fs) = .ok inst →
      ((jsonLookup fs "created" = none ∨ jsonLookup fs "created" = some .null) →
        inst.Created = none) ∧
      ((jsonLookup fs "updated" = none ∨ jsonLookup fs "updated" = some .null) →
        inst.Updated = none)) ∧
    (∀ fs s, parseTimestampString s = none →
      (jsonLookup fs "created" = some (.str s) ∨ jsonLookup fs "updated" = some (.str s)) →
      ∃ e, decodeInstance (.obj fs) = .error e) := by
  refine ⟨?_, ?_, ?_, ?_⟩
  · intro fs ev hok hnull
    have hc := (decodeEvent_ok hok).1
    rcases hnull with h | h <;> rw [h] at hc <;> simpa [parseTimestampField] using hc.symm
  · intro fs s hlook hbad
    apply decodeEvent_created_error "DecodeError: unrecognized timestamp format"
    rw [hlook]
    simp [parseTimestampField, hbad]
  · intro fs inst hok
    obtain ⟨hc, hu⟩ := decodeInstance_ok hok
    constructor
    · intro hnull
      rcases hnull with h | h <;> rw [h] at hc <;> simpa [parseTimestampField] using hc.symm
    · intro hnull
      rcases hnull with h | h <;> rw [h] at hu <;> simpa [parseTimestampField] using hu.symm
  · intro fs s hbad hlook
    apply decodeInstance_timestamp_error "DecodeError: unrecognized timestamp format"
    rcases hlook with h | h
    · exact Or.inl (by rw [h]; simp [parseTimestampField, hbad])
    · exact Or.inr (by rw [h]; simp [parseTimestampField, hbad])

/-- Witness for C3: a null `created` decodes to a nil timestamp on a
successfully decoded Event and Instance; the string "not-a-date" fails
both record decodes. -/
theorem claim_C3_witness :
    (({ ID := 0, Status := "", Action := "", PercentComplete := 0, Rate := none
        Read := false, Seen := false, TimeRemaining := none, Username := ""
        Entity := none, SecondaryEntity := none, Created := none } : Event).Created = none) ∧
    (∃ e, decodeEvent (.obj [("created", .str "not-a-date")]) = .error e) ∧
    (({ ID := 0, Created := none, Updated := none, Region := "", Alerts := none
        Backups := none, Image := "", Group := "", IPv4 := [], IPv6 := "", Label := ""
        Type' := "", Status := "", HasUserData := false, Hypervisor := "", HostUUID := ""
        Specs := none, WatchdogEnabled := false, Tags := []
        PlacementGroup := none } : Instance).Updated = none) ∧
    (∃ e, decodeInstance (.obj [("updated", .str "not-a-date")]) = .error e) :=
  ⟨claim_C3.1 [("created", Json.null)] _ rfl (Or.inr rfl),
   claim_C3.2.1 [("created", .str "not-a-date")] "not-a-date" rfl rfl,
   (claim_C3.2.2.1 [("updated", Json.null)] _ rfl).2 (Or.inr rfl),
   claim_C3.2.2.2 [("updated", .str "not-a-date")] "not-a-date" rfl (Or.inr rfl)⟩

/-- C5: whenever `Event.UnmarshalJSON` or `Instance.UnmarshalJSON` reports
success, the input was a JSON object and the allow-listed non-standard
fields hold exactly the tolerant decoders' resolved values: `Created` (and
`Updated`) is the timestamp decoder's output and `TimeRemaining` is the
total duration decoder's output — success never leaves them unresolved. -/
theorem claim_C5 :
    (∀ j ev, decodeEvent j = .ok ev → ∃ fs, j = .obj fs ∧
      parseTimestampField (jsonLookup fs "created") = .ok ev.Created ∧
      ev.TimeRemaining = UnmarshalTimeRemaining (jsonLookup fs "time_remaining")) ∧
    (∀ j inst, decodeInstance j = .ok inst → ∃ fs, j = .obj fs ∧
      parseTimestampField (jsonLookup fs "created") = .ok inst.Created ∧
      parseTimestampField (jsonLookup fs "updated") = .ok inst.Updated) := by
  constructor
  · intro j ev hok
    obtain ⟨fs, rfl⟩ := decodeEvent_ok_obj hok
    exact ⟨fs, rfl, decodeEvent_ok hok⟩
  · intro j inst hok
    obtain ⟨fs, rfl⟩ := decodeInstance_ok_obj hok
    exact ⟨fs, rfl, decodeInstance_ok hok⟩

/-- Witness for C5: a concrete successful Event decode with a parseable
`created` and an integer `time_remaining`, and a successful Instance
decode, both resolved through the tolerant decoders. -/
theorem claim_C5_witness :
    (∃ fs, (Json.obj [("created", Json.str "2021-06-01 12:00:00"), ("time_remaining", Json.num 42)])
        = .obj fs ∧
      parseTimestampField (jsonLookup fs "created") = .ok (some ⟨2021, 6, 1, 12, 0, 0⟩) ∧
      (some (42 : Int)) = UnmarshalTimeRemaining (jsonLookup fs "time_remaining")) ∧
    (∃ fs, (Json.obj [("created", Json.str "2021-06-01T12:00:00")]) = .obj fs ∧
      parseTimestampField (jsonLookup fs "created") = .ok (some ⟨2021, 6, 1, 12, 0, 0⟩) ∧
      parseTimestampField (jsonLookup fs "updated") = .ok none) :=
  ⟨claim_C5.1 _
    { ID := 0, Status := "", Action := "", PercentComplete := 0, Rate := none
      Read := false, Seen := false, TimeRemaining := some 42, Username := ""
      Entity := none, SecondaryEntity := none, Created := some ⟨2021, 6, 1, 12, 0, 0⟩ } rfl,
   claim_C5.2 _
    { ID := 0, Created := some ⟨2021, 6, 1, 12, 0, 0⟩, Updated := none, Region := ""
      Alerts := none, Backups := none, Image := "", Group := "", IPv4 := [], IPv6 := ""
      Label := "", Type' := "", Status := "", HasUserData := false, Hypervisor := ""
      HostUUID := "", Specs := none, WatchdogEnabled := false, Tags := []
      PlacementGroup := none } rfl⟩

/-- Key-presence of an `omitempty` string field: present iff non-empty. -/
theorem any_key_omitemptyString (n m s : String) :
    (omitemptyString n s).any (fun kv => kv.1 == m) = ((n == m) && !(s == "")) := by
  by_cases h : s = "" <;> simp [omitemptyString, h]

/-- Key-presence of an `omitempty` int field: present iff non-zero. -/
theorem any_key_omitemptyInt (n m : String) (x : Int) :
    (omitemptyInt n x).any (fun kv => kv.1 == m) = ((n == m) && !(x == 0)) := by
  by_cases h : x = 0 <;> simp [omitemptyInt, h]

/-- Key-presence of an `omitempty` bool field: present iff true. -/
theorem any_key_omitemptyBool (n m : String) (b : Bool) :
    (omitemptyBool n b).any (fun kv => kv.1 == m) = ((n == m) && b) := by
  cases b <;> simp [omitemptyBool]

/-- Key-presence of an `omitempty` slice field: present iff non-empty. -/
theorem any_key_omitemptyList (n m : String) (xs : List Json) :
    (omitemptyList n xs).any (fun kv => kv.1 == m) = ((n == m) && !xs.isEmpty) := by
  cases xs <;> simp [omitemptyList, List.isEmpty]

/-- Key-presence of an `omitempty` pointer field: present iff set. -/
theorem any_key_omitemptyOpt {α : Type} (n m : String) (enc : α → Json) (o : Option α) :
    (omitemptyOpt n enc o).any (fun kv => kv.1 == m) = ((n == m) && o.isSome) := by
  cases o <;> simp [omitemptyOpt]

/-- C7: Options-Record serialization omits `omitempty` fields exactly when
empty (`InstanceUpdateOptions.Label`, `PlacementGroupUpdateOptions.Label`),
always sends the untagged required fields (`InstanceCreateOptions.Region`
and `Type`, even when empty: the quantification is over all option
records), and for the pointer-represented fields (`SwapSize`, `Booted`,
`WatchdogEnabled`, `CompliantOnly`) the field is present in the JSON
exactly when set — including when set to an explicit false or zero. -/
theorem claim_C7 (u : InstanceUpdateOptions) (p : PlacementGroupUpdateOptions)
    (c : InstanceCreateOptions) (pg : InstanceCreatePlacementGroupOptions) :
    (hasField (marshalInstanceUpdateOptions u) "label" = true ↔ u.Label ≠ "") ∧
    (hasField (marshalPlacementGroupUpdateOptions p) "label" = true ↔ p.Label ≠ "") ∧
    hasField (marshalInstanceCreateOptions c) "region" = true ∧
    hasField (marshalInstanceCreateOptions c) "type" = true ∧
    (hasField (marshalInstanceCreateOptions c) "swap_size" = true ↔ c.SwapSize.isSome = true) ∧
    (hasField (marshalInstanceCreateOptions c) "booted" = true ↔ c.Booted.isSome = true) ∧
    (hasField (marshalInstanceUpdateOptions u) "watchdog_enabled" = true
      ↔ u.WatchdogEnabled.isSome = true) ∧
    (hasField (marshalInstanceCreatePlacementGroupOptions pg) "compliant_only" = true
      ↔ pg.CompliantOnly.isSome = true) := by
  refine ⟨?_, ?_, ?_, ?_, ?_, ?_, ?_, ?_⟩ <;>
  · by_cases hsd : c.StackScriptData.isEmpty <;>
    simp [hasField, marshalInstanceUpdateOptions, marshalPlacementGroupUpdateOptions,
      marshalInstanceCreateOptions, marshalInstanceCreatePlacementGroupOptions,
      List.any_append, any_key_omitemptyString, any_key_omitemptyInt, any_key_omitemptyBool,
      any_key_omitemptyList, any_key_omitemptyOpt, hsd]

/-- C8 counterexample: the claim that `EventEntity.ID` is represented after
decode as a tagged union over IntegerID and StringID, resolved by JSON
token type, is false of the code: the source declares `ID any` and performs
no decode-time resolution, so an entity whose `id` is the boolean token
`true` decodes successfully with the raw token stored untyped — a value a
tagged union over integers and strings cannot represent, and one the
spec-worded decoder rejects on the same input. -/
theorem claim_C8_counterexample :
    decodeEventEntity (.obj [("id", .bool true)]) =
      .ok { ID := .bool true, Label := "", Type' := "", Status := "", URL := "" } ∧
    decodeEntityIDSpec (.bool true) =
      .error "DecodeError: entity id must be an integer or a string" :=
  ⟨rfl, rfl⟩

/-- C8 (amended): `EventEntity.ID` is decoded as an untyped dynamic value:
whatever JSON token appears in the `id` field is stored as-is (`Json.null`
for a missing or null id), with no decode-time restriction to integer or
string. -/
theorem claim_C8 (fs : List (String × Json)) (ent : EventEntity)
    (h : decodeEventEntity (.obj fs) = .ok ent) :
    ent.ID = (jsonLookup fs "id").getD .null := by
  simp only [decodeEventEntity, bind_ok_iff, pure_ok_iff] at h
  obtain ⟨label, hl, typ, ht, status, hs, url, hu, hent⟩ := h
  subst hent
  rfl

/-- Witness for C8 (amended) at a string-typed id token. -/
theorem claim_C8_witness :
    ({ ID := .str "linode", Label := "", Type' := "", Status := "", URL := "" }
        : EventEntity).ID
      = (jsonLookup [("id", Json.str "linode")] "id").getD .null :=
  claim_C8 [("id", Json.str "linode")] _ rfl

/-- C9: `RenameInstance(ctx, id, label)` is observationally equivalent to
`UpdateInstance(ctx, id, InstanceUpdateOptions{Label: label})`: the same
result, error and request trace for every serializer, HTTP oracle, id and
label. -/
theorem claim_C9 (marshal : InstanceUpdateOptions → Except String String)
    (http : Http) (linodeID : Int) (label : String) :
    RenameInstance marshal http linodeID label =
      UpdateInstance marshal http linodeID
        { Label := label, Backups := none, Alerts := none
          WatchdogEnabled := none, Tags := none, Group := none } :=
  rfl

/-- C10: `Instance.GetUpdateOptions` carries over exactly Label, Group,
Backups, Alerts, WatchdogEnabled and Tags, with Group, WatchdogEnabled and
Tags always set (non-nil pointers to the instance's fields). -/
theorem claim_C10 (i : Instance) :
    i.GetUpdateOptions.Label = i.Label ∧
    i.GetUpdateOptions.Group = some i.Group ∧
    i.GetUpdateOptions.Backups = i.Backups ∧
    i.GetUpdateOptions.Alerts = i.Alerts ∧
    i.GetUpdateOptions.WatchdogEnabled = some i.WatchdogEnabled ∧
    i.GetUpdateOptions.Tags = some i.Tags ∧
    i.GetUpdateOptions.Group.isSome = true ∧
    i.GetUpdateOptions.WatchdogEnabled.isSome = true ∧
    i.GetUpdateOptions.Tags.isSome = true :=
  ⟨rfl, rfl, rfl, rfl, rfl, rfl, rfl, rfl, rfl⟩

end Linodego
